import Mathlib

/-!
Shallow embedding of the `homework_bot` repository (files `homework.py` and
`exceptions.py`): a Telegram bot that polls the Practicum homework-status API,
validates the response, formats a verdict message and delivers it, with a
two-tier error policy in the poll loop.

External effects (HTTP, Telegram, the wall clock) are modelled as explicit
oracle arguments; Python exceptions become an `Except` error channel whose
error kinds mirror the exception classes of `exceptions.py` plus the built-in
Python exceptions the script can raise.
-/

set_option maxHeartbeats 1000000

namespace HomeworkBot

/-- A Python runtime value, as far as this script manipulates them: `None`,
integers, strings, lists, and dictionaries.  Every dictionary this program
handles comes from parsed JSON, whose keys are strings, so dictionaries are
modelled as association lists with string keys (first binding wins, as a
Python dict holds each key once). -/
inductive Py where
  | pyNone : Py
  | int : Int → Py
  | str : String → Py
  | list : List Py → Py
  | dict : List (String × Py) → Py

/-- First-match lookup in an association list: the model of `d[k]` /
`d.get(k)` presence for a Python dict. -/
def assoc_lookup {α : Type} : List (String × α) → String → Option α
  | [], _ => none
  | (k, v) :: rest, key => if k = key then some v else assoc_lookup rest key

mutual

/-- Python `repr` of a value, used by `str` on containers. -/
def pyRepr : Py → String
  | .pyNone => "None"
  | .int n => toString n
  | .str s => "\x27" ++ s ++ "\x27"
  | .list xs => "[" ++ pyReprList xs ++ "]"
  | .dict es => "\x7b" ++ pyReprDict es ++ "\x7d"

/-- Comma-separated `repr`s of the elements of a Python list. -/
def pyReprList : List Py → String
  | [] => ""
  | [x] => pyRepr x
  | x :: xs => pyRepr x ++ ", " ++ pyReprList xs

/-- Comma-separated `'key': repr(value)` pairs of a Python dict. -/
def pyReprDict : List (String × Py) → String
  | [] => ""
  | [(k, v)] => "\x27" ++ k ++ "\x27: " ++ pyRepr v
  | (k, v) :: es => "\x27" ++ k ++ "\x27: " ++ pyRepr v ++ ", " ++ pyReprDict es

end

/-- Python `str` of a value (as used by `str.format` substitution): a string
renders bare, everything else as its `repr`. -/
def pyToStr : Py → String
  | .str s => s
  | v => pyRepr v

/-- Python truthiness (`bool(v)`), used by `current_timestamp or int(time.time())`. -/
def pyTruthy : Py → Bool
  | .pyNone => false
  | .int n => n != 0
  | .str s => s != ""
  | .list xs => !xs.isEmpty
  | .dict es => !es.isEmpty

/-- The exceptions the script can raise: the four classes of `exceptions.py`
and the Python built-ins (`TypeError`, `KeyError`, `ValueError`,
`AttributeError`) that its code paths can produce.  Each carries the message
string it was constructed with. -/
inductive PyError where
  | typeError : String → PyError
  | keyError : String → PyError
  | valueError : String → PyError
  | attributeError : String → PyError
  | wrongResponseCode : String → PyError
  | emptyResponseFromAPI : String → PyError
  | telegramError : String → PyError
deriving DecidableEq, Repr

/-- Membership in the `NotForSend` exception family of `exceptions.py`:
`EmptyResponseFromAPI` and `TelegramError` are its subclasses, nothing else
the script raises is. -/
def isNotForSend : PyError → Bool
  | .emptyResponseFromAPI _ => true
  | .telegramError _ => true
  | _ => false

/-- The message string an error carries: the model of Python `str(error)`
for these single-argument exceptions. -/
def errStr : PyError → String
  | .typeError m => m
  | .keyError m => m
  | .valueError m => m
  | .attributeError m => m
  | .wrongResponseCode m => m
  | .emptyResponseFromAPI m => m
  | .telegramError m => m

/-- `HOMEWORK_VERDICTS` from `homework.py`. -/
def HOMEWORK_VERDICTS : List (String × String) :=
  [("approved", "Работа проверена: ревьюеру всё понравилось. Ура!"),
   ("reviewing", "Работа взята на проверку ревьюером."),
   ("rejected", "Работа проверена: у ревьюера есть замечания.")]

/-- `ENDPOINT` from `homework.py`. -/
def ENDPOINT : String := "https://practicum.yandex.ru/api/user_api/homework_statuses/"

/-- `check_response` (`homework.py` lines 105-135): `TypeError` when the
response is not a dict; `EmptyResponseFromAPI` when `homeworks` or
`current_date` is missing; `TypeError` when `homeworks` is not a list;
otherwise the `homeworks` list unchanged. -/
def check_response (response : Py) : Except PyError (List Py) :=
  match response with
  | .dict entries =>
    if (assoc_lookup entries ("homeworks")).isNone
        || (assoc_lookup entries ("current_date")).isNone then
      .error (.emptyResponseFromAPI
        ("Отсутствует один из ключей, homeworks или current_date, в ответе API."))
    else
      match assoc_lookup entries ("homeworks") with
      | some (.list homeworks) => .ok homeworks
      | _ => .error (.typeError ("homeworks не является list."))
  | _ => .error (.typeError ("Ответ API не является dict."))

/-- The dict-membership test `homework_status not in HOMEWORK_VERDICTS`
(`homework.py` line 162), keyed by a Python value: looking up an unhashable
value (a list or a dict) in a Python dict raises `TypeError`; a hashable
value that is not one of the three verdict keys simply fails the lookup. -/
def verdict_of (status : Py) : Except PyError (Option String) :=
  match status with
  | .str s => .ok (assoc_lookup HOMEWORK_VERDICTS s)
  | .list _ => .error (.typeError ("unhashable type: \x27list\x27"))
  | .dict _ => .error (.typeError ("unhashable type: \x27dict\x27"))
  | _ => .ok none

/-- `parse_status` (`homework.py` lines 138-168): `KeyError` when
`homework_name` is missing, then `ValueError` when the `status` value is not
a key of `HOMEWORK_VERDICTS`, otherwise the formatted verdict sentence.
A non-dict argument is modelled as a `TypeError` (in Python the exact
built-in raised by `'homework_name' not in homework` / `homework.get`
depends on the argument's type, but it is always a generic, not-`NotForSend`
error; the loop only ever passes this function elements of the `homeworks`
list). -/
def parse_status (homework : Py) : Except PyError String :=
  match homework with
  | .dict entries =>
    if (assoc_lookup entries ("homework_name")).isNone then
      .error (.keyError ("Нет ключа homework_name в ответе API."))
    else
      let homework_name := (assoc_lookup entries ("homework_name")).getD .pyNone
      let homework_status := (assoc_lookup entries ("status")).getD .pyNone
      match verdict_of homework_status with
      | .error e => .error e
      | .ok none =>
          .error (.valueError
            ("Неизвестный статус работы - " ++ pyToStr homework_status ++ "."))
      | .ok (some verdict) =>
          .ok ("Изменился статус проверки работы \"" ++ pyToStr homework_name
                ++ "\". " ++ verdict)
  | _ => .error (.typeError ("homework не является dict."))

/-- Outcome of `response.json()`: a parsed JSON value, or a decode failure
(`requests.exceptions.JSONDecodeError`, a `RequestException` subclass). -/
inductive JsonResult where
  | parsed : Py → JsonResult
  | malformed : String → JsonResult

/-- Outcome of `requests.get`: an HTTP response with a status code and a
body, or a raised `requests.exceptions.RequestException` (timeout,
connection error, ...). -/
inductive HttpResult where
  | response : Nat → JsonResult → HttpResult
  | requestException : String → HttpResult

/-- The non-200 message of `get_api_answer` (`homework.py` lines 90-93),
with the request parameters substituted (the `Authorization` header, an
environment-supplied token, is elided). -/
def wrongCodeMessage (status : Nat) (from_date : Py) : String :=
  "API не возвращает 200. Код ответа " ++ toString status ++ ". Запрос: "
    ++ ENDPOINT ++ ", from_date=" ++ pyToStr from_date ++ "."

/-- The transport-fault message of `get_api_answer` (`homework.py` lines
97-100). -/
def requestErrorMessage (from_date : Py) : String :=
  "Произошла ошибка при запросе к API. API не возвращает 200. Запрос: "
    ++ ENDPOINT ++ ", from_date=" ++ pyToStr from_date ++ "."

/-- The `try` body of `get_api_answer` (`homework.py` lines 87-102) applied
to the outcome of `requests.get`: a raised `RequestException` is caught and
re-raised as `WrongResponseCode`; a non-200 status raises `WrongResponseCode`
directly (not caught by the `except` clause, which only catches
`RequestException`); on a 200 the parsed JSON body is returned, a JSON decode
failure being itself a `RequestException` caught and re-raised as
`WrongResponseCode`. -/
def handle_http (from_date : Py) (result : HttpResult) : Except PyError Py :=
  match result with
  | .requestException _ => .error (.wrongResponseCode (requestErrorMessage from_date))
  | .response status body =>
    if status != 200 then
      .error (.wrongResponseCode (wrongCodeMessage status from_date))
    else
      match body with
      | .parsed v => .ok v
      | .malformed _ => .error (.wrongResponseCode (requestErrorMessage from_date))

/-- `get_api_answer` (`homework.py` lines 56-102).  `timestamp =
current_timestamp or int(time.time())` substitutes the wall clock for a falsy
argument; the network is the oracle `http`, consulted at the `from_date`
query parameter actually sent. -/
def get_api_answer (current_timestamp : Py) (now : Int) (http : Py → HttpResult) :
    Except PyError Py :=
  let timestamp := if pyTruthy current_timestamp then current_timestamp else .int now
  handle_http timestamp (http timestamp)

/-- Outcome of one `bot.send_message` call to the Telegram API: success, or a
raised `telegram.error.TelegramError`. -/
inductive SendOutcome where
  | success : SendOutcome
  | telegramFailure : String → SendOutcome

/-- The message of the `TelegramError` re-raised by `send_message`
(`homework.py` line 191). -/
def telegramErrorMessage (err : String) : String :=
  "Ошибка отправки статуса в telegram: " ++ err ++ "."

/-- `send_message` (`homework.py` lines 171-193): delivers `message` via the
Telegram oracle `send`; a `telegram.error.TelegramError` is caught, logged
and re-raised as the project's own `TelegramError` (a `NotForSend`
subclass). -/
def send_message (send : String → SendOutcome) (message : String) :
    Except PyError Unit :=
  match send message with
  | .success => .ok ()
  | .telegramFailure err => .error (.telegramError (telegramErrorMessage err))

/-- `response.get('current_date', default)` (`homework.py` lines 237-239):
on a dict, the stored value or the default; on any other value, Python
raises `AttributeError` (no `.get` method). -/
def dict_get (v : Py) (key : String) (default : Py) : Except PyError Py :=
  match v with
  | .dict entries => .ok ((assoc_lookup entries key).getD default)
  | _ => .error (.attributeError ("object has no attribute \x27get\x27"))

/-- `homework.py` lines 241-244: the first homework formatted when the list
is non-empty, the fixed no-news text otherwise. -/
def compute_message : List Py → Except PyError String
  | [] => .ok ("Нет новых статусов")
  | hw :: _ => parse_status hw

/-- The failure-notification text built by both `except` handlers
(`homework.py` lines 251 and 254). -/
def failureMessage (e : PyError) : String :=
  "Сбой в работе программы: " ++ errStr e

/-- The loop-local mutable state of `main`: `current_timestamp` (a Python
value: line 237 assigns whatever the response stores under `current_date`)
and `prev_msg`. -/
structure BotState where
  current_timestamp : Py
  prev_msg : String

/-- The external world during one loop cycle: the HTTP oracle (consulted at
the `from_date` actually sent), the wall clock, and the Telegram oracle
(consulted at the message text being sent). -/
structure CycleEnv where
  http : Py → HttpResult
  now : Int
  send : String → SendOutcome

/-- Observable outcome of one loop cycle: the state after the cycle, the
messages passed to `send_message` in order, the messages actually delivered,
and the exception, if any, that escaped the `try`/`except`/`finally`
statement (crashing the process). -/
structure CycleTrace where
  state : BotState
  attempts : List String
  delivered : List String
  escaped : Option PyError

/-- The `except` clauses of `main` (`homework.py` lines 250-258), entered
with the state as updated so far and the send attempts already made inside
the `try` body.  A `NotForSend` error is only logged.  Any other error is
logged and, when the failure text differs from `prev_msg`, notified via
`send_message`; a `TelegramError` raised by that call is raised inside the
`except` clause, which the surrounding `try` does not catch, so it escapes
the loop. -/
def handle_error (env : CycleEnv) (st : BotState) (e : PyError)
    (attempts delivered : List String) : CycleTrace :=
  if isNotForSend e then
    ⟨st, attempts, delivered, none⟩
  else if failureMessage e != st.prev_msg then
    match send_message env.send (failureMessage e) with
    | .ok _ =>
        ⟨⟨st.current_timestamp, failureMessage e⟩, attempts ++ [failureMessage e],
          delivered ++ [failureMessage e], none⟩
    | .error e2 => ⟨st, attempts ++ [failureMessage e], delivered, some e2⟩
  else
    ⟨st, attempts, delivered, none⟩

/-- One iteration of the `while True` loop of `main` (`homework.py` lines
234-260): fetch, advance `current_timestamp` from the response's
`current_date` (wall-clock fallback), validate, format, and deliver when the
message is new; every exception raised in the `try` body is dispatched to
`handle_error`.  On a successful delivery `prev_msg` is updated; a delivery
failure raises `TelegramError` before the update, caught by the `except
NotForSend` clause. -/
def cycle (env : CycleEnv) (st : BotState) : CycleTrace :=
  match get_api_answer st.current_timestamp env.now env.http with
  | .error e => handle_error env st e [] []
  | .ok response =>
    match dict_get response ("current_date") (.int env.now) with
    | .error e => handle_error env st e [] []
    | .ok new_ts =>
      let st1 : BotState := ⟨new_ts, st.prev_msg⟩
      match check_response response with
      | .error e => handle_error env st1 e [] []
      | .ok homeworks =>
        match compute_message homeworks with
        | .error e => handle_error env st1 e [] []
        | .ok message =>
          if message != st1.prev_msg then
            match send_message env.send message with
            | .ok _ => ⟨⟨st1.current_timestamp, message⟩, [message], [message], none⟩
            | .error e => handle_error env st1 e [message] []
          else
            ⟨st1, [], [], none⟩

/-- Cumulative outcome of a sequence of loop cycles. -/
structure RunResult where
  state : BotState
  attempts : List String
  delivered : List String
  escaped : Option PyError

/-- Runs the loop once per environment in the list, accumulating attempts
and deliveries; an escaped exception terminates the run (the process
crashes). -/
def runCycles : List CycleEnv → BotState → RunResult
  | [], st => ⟨st, [], [], none⟩
  | env :: rest, st =>
    let t := cycle env st
    match t.escaped with
    | some e => ⟨t.state, t.attempts, t.delivered, some e⟩
    | none =>
      let r := runCycles rest t.state
      ⟨r.state, t.attempts ++ r.attempts, t.delivered ++ r.delivered, r.escaped⟩

end HomeworkBot

namespace HomeworkBot

/-- Every message `handle_error` adds to the attempt list differs from the
`prev_msg` of the state it was entered with. -/
theorem mem_handle_error_attempts (env : CycleEnv) (st : BotState) (e : PyError)
    (as ds : List String) (m : String)
    (hm : m ∈ (handle_error env st e as ds).attempts) :
    m ∈ as ∨ m ≠ st.prev_msg := by
  by_cases hn : isNotForSend e = true
  · simp [handle_error, hn] at hm
    exact .inl hm
  · by_cases hp : failureMessage e = st.prev_msg
    · simp [handle_error, hn, hp] at hm
      exact .inl hm
    · cases hs : env.send (failureMessage e) with
      | success =>
          simp [handle_error, send_message, hn, hp, hs] at hm
          rcases hm with hm | hm
          · exact .inl hm
          · exact .inr (hm ▸ hp)
      | telegramFailure err =>
          simp [handle_error, send_message, hn, hp, hs] at hm
          rcases hm with hm | hm
          · exact .inl hm
          · exact .inr (hm ▸ hp)

/-- The only exception that can escape `handle_error` is the `TelegramError`
raised by the failure-notification delivery. -/
theorem handle_error_escaped (env : CycleEnv) (st : BotState) (e : PyError)
    (as ds : List String) (e2 : PyError)
    (h : (handle_error env st e as ds).escaped = some e2) :
    ∃ s, e2 = .telegramError s := by
  by_cases hn : isNotForSend e = true
  · simp [handle_error, hn] at h
  · by_cases hp : failureMessage e = st.prev_msg
    · simp [handle_error, hn, hp] at h
    · cases hs : env.send (failureMessage e) with
      | success => simp [handle_error, send_message, hn, hp, hs] at h
      | telegramFailure err =>
          simp [handle_error, send_message, hn, hp, hs] at h
          exact ⟨_, h.symm⟩

/-- When every Telegram send succeeds, nothing escapes `handle_error`. -/
theorem handle_error_escaped_success (env : CycleEnv) (st : BotState) (e : PyError)
    (as ds : List String) (hsend : ∀ m, env.send m = .success) :
    (handle_error env st e as ds).escaped = none := by
  by_cases hn : isNotForSend e = true
  · simp [handle_error, hn]
  · by_cases hp : failureMessage e = st.prev_msg
    · simp [handle_error, hn, hp]
    · simp [handle_error, send_message, hn, hp, hsend]

/-- A `NotForSend`-family error is only logged by `handle_error`. -/
theorem handle_error_not_for_send (env : CycleEnv) (st : BotState) (e : PyError)
    (as ds : List String) (h : isNotForSend e = true) :
    handle_error env st e as ds = ⟨st, as, ds, none⟩ := by
  simp [handle_error, h]

/-- `handle_error` leaves `prev_msg` unchanged unless it delivered the
failure message. -/
theorem handle_error_prev (env : CycleEnv) (st : BotState) (e : PyError)
    (as ds : List String) :
    (handle_error env st e as ds).state.prev_msg = st.prev_msg ∨
    (handle_error env st e as ds).state.prev_msg ∈ (handle_error env st e as ds).delivered := by
  by_cases hn : isNotForSend e = true
  · simp [handle_error, hn]
  · by_cases hp : failureMessage e = st.prev_msg
    · simp [handle_error, hn, hp]
    · cases hs : env.send (failureMessage e) with
      | success => simp [handle_error, send_message, hn, hp, hs]
      | telegramFailure err => simp [handle_error, send_message, hn, hp, hs]

/-- `handle_error` never changes `current_timestamp`. -/
theorem handle_error_ts (env : CycleEnv) (st : BotState) (e : PyError)
    (as ds : List String) :
    (handle_error env st e as ds).state.current_timestamp = st.current_timestamp := by
  by_cases hn : isNotForSend e = true
  · simp [handle_error, hn]
  · by_cases hp : failureMessage e = st.prev_msg
    · simp [handle_error, hn, hp]
    · cases hs : env.send (failureMessage e) with
      | success => simp [handle_error, send_message, hn, hp, hs]
      | telegramFailure err => simp [handle_error, send_message, hn, hp, hs]

/-- Anatomy of one loop cycle: it either dispatches an error to
`handle_error` (entered with the cycle's starting `prev_msg` and at most one
prior attempt, itself different from `prev_msg`), or delivers a fresh
message, or only logs. -/
theorem cycle_cases (env : CycleEnv) (st : BotState) :
    (∃ st1 e as, cycle env st = handle_error env st1 e as [] ∧
       st1.prev_msg = st.prev_msg ∧
       (as = [] ∨ ∃ msg, as = [msg] ∧ msg ≠ st.prev_msg)) ∨
    (∃ ts msg, msg ≠ st.prev_msg ∧
       cycle env st = ⟨⟨ts, msg⟩, [msg], [msg], none⟩) ∨
    (∃ ts, cycle env st = ⟨⟨ts, st.prev_msg⟩, [], [], none⟩) := by
  cases hg : get_api_answer st.current_timestamp env.now env.http with
  | error e => exact .inl ⟨st, e, [], by simp [cycle, hg], rfl, .inl rfl⟩
  | ok response =>
    cases hd : dict_get response ("current_date") (.int env.now) with
    | error e => exact .inl ⟨st, e, [], by simp [cycle, hg, hd], rfl, .inl rfl⟩
    | ok new_ts =>
      cases hc : check_response response with
      | error e =>
          exact .inl ⟨⟨new_ts, st.prev_msg⟩, e, [], by simp [cycle, hg, hd, hc], rfl, .inl rfl⟩
      | ok homeworks =>
        cases hp : compute_message homeworks with
        | error e =>
            exact .inl ⟨⟨new_ts, st.prev_msg⟩, e, [],
              by simp [cycle, hg, hd, hc, hp], rfl, .inl rfl⟩
        | ok message =>
          by_cases hmsg : message = st.prev_msg
          · exact .inr (.inr ⟨new_ts, by simp [cycle, hg, hd, hc, hp, hmsg]⟩)
          · cases hs : env.send message with
            | success =>
                exact .inr (.inl ⟨new_ts, message, hmsg,
                  by simp [cycle, hg, hd, hc, hp, hmsg, send_message, hs]⟩)
            | telegramFailure err =>
                exact .inl ⟨⟨new_ts, st.prev_msg⟩, .telegramError (telegramErrorMessage err),
                  [message],
                  by simp [cycle, hg, hd, hc, hp, hmsg, send_message, hs], rfl,
                  .inr ⟨message, rfl, hmsg⟩⟩

end HomeworkBot

namespace HomeworkBot

/-- C5: a response mapping missing `homeworks` or `current_date` makes
`check_response` fail with `EmptyResponseFromAPI` — a member of the
`NotForSend` family — and never with the generic `TypeError`. -/
theorem C5_empty_response (entries : List (String × Py))
    (h : assoc_lookup entries ("homeworks") = none ∨
         assoc_lookup entries ("current_date") = none) :
    check_response (.dict entries) =
      .error (.emptyResponseFromAPI
        ("Отсутствует один из ключей, homeworks или current_date, в ответе API.")) ∧
    isNotForSend (.emptyResponseFromAPI
        ("Отсутствует один из ключей, homeworks или current_date, в ответе API.")) = true ∧
    ∀ m, check_response (.dict entries) ≠ .error (.typeError m) := by
  have h1 : check_response (.dict entries) =
      .error (.emptyResponseFromAPI
        ("Отсутствует один из ключей, homeworks или current_date, в ответе API.")) := by
    rcases h with h | h <;> simp [check_response, h]
  refine ⟨h1, rfl, fun m hm => ?_⟩
  rw [h1] at hm
  exact PyError.noConfusion (Except.error.inj hm)

theorem C5_witness :
    check_response (.dict []) =
      .error (.emptyResponseFromAPI
        ("Отсутствует один из ключей, homeworks или current_date, в ответе API.")) :=
  (C5_empty_response [] (.inl rfl)).1

/-- C6: on a mapping containing both `homeworks` and `current_date`,
`check_response` fails with a `TypeError` when the `homeworks` value is not
a list and returns the list unchanged when it is one. -/
theorem C6_homeworks_list (entries : List (String × Py)) (hv cv : Py)
    (hh : assoc_lookup entries ("homeworks") = some hv)
    (hc : assoc_lookup entries ("current_date") = some cv) :
    ((∀ xs, hv ≠ .list xs) →
        check_response (.dict entries) =
          .error (.typeError ("homeworks не является list."))) ∧
    (∀ xs, hv = .list xs → check_response (.dict entries) = .ok xs) := by
  constructor
  · intro hnl
    cases hv with
    | list xs => exact absurd rfl (hnl xs)
    | pyNone => simp [check_response, hh, hc]
    | int n => simp [check_response, hh, hc]
    | str s => simp [check_response, hh, hc]
    | dict es => simp [check_response, hh, hc]
  · intro xs hxs
    subst hxs
    simp [check_response, hh, hc]

theorem C6_witness :
    check_response (.dict [("homeworks", .int 3), ("current_date", .int 1)]) =
      .error (.typeError ("homeworks не является list.")) ∧
    check_response (.dict [("homeworks", .list []), ("current_date", .int 1)]) = .ok [] :=
  ⟨(C6_homeworks_list [("homeworks", .int 3), ("current_date", .int 1)] (.int 3) (.int 1)
      rfl rfl).1 (fun _ h => Py.noConfusion h),
   (C6_homeworks_list [("homeworks", .list []), ("current_date", .int 1)] (.list []) (.int 1)
      rfl rfl).2 [] rfl⟩

/-- C10: `parse_status` tests `homework_name` before the status: a record
without that key fails with `KeyError` whatever its status, and a
`ValueError` can only arise on records that do contain `homework_name`. -/
theorem C10_key_before_value :
    (∀ entries, assoc_lookup entries ("homework_name") = none →
        parse_status (.dict entries) =
          .error (.keyError ("Нет ключа homework_name в ответе API."))) ∧
    (∀ entries m, parse_status (.dict entries) = .error (.valueError m) →
        (assoc_lookup entries ("homework_name")).isSome) := by
  constructor
  · intro entries h
    simp [parse_status, h]
  · intro entries m h
    by_contra hn
    rw [Option.not_isSome_iff_eq_none] at hn
    simp [parse_status, hn] at h

theorem C10_witness :
    parse_status (.dict [("status", .str ("approved"))]) =
      .error (.keyError ("Нет ключа homework_name в ответе API.")) ∧
    (assoc_lookup [("homework_name", Py.pyNone)] ("homework_name")).isSome :=
  ⟨C10_key_before_value.1 [("status", .str ("approved"))] rfl,
   C10_key_before_value.2 [("homework_name", Py.pyNone)]
     ("Неизвестный статус работы - None.") rfl⟩

/-- C3, counterexample: a record whose status value is a list (an
"other status value") makes `parse_status` fail with the `TypeError` that
Python's dict-membership test raises on an unhashable key, not with a
`ValueError`. -/
theorem C3_counterexample :
    parse_status (.dict [("homework_name", .str ("hw1")), ("status", .list [])]) =
      .error (.typeError ("unhashable type: \x27list\x27")) := rfl

/-- C3, amended: with `homework_name` present, a string status among the
three verdict keys yields exactly the formatted template (in particular the
exact claimed sentence for `approved`/`hw1`); any other hashable status
value (missing, `None`, a number, an unrecognized string) yields a
`ValueError`; an unhashable status value (a list or a dict) yields the
`TypeError` raised by the dict-membership test. -/
theorem C3_parse_status_verdicts :
    (∀ entries name_val status verdict,
        assoc_lookup entries ("homework_name") = some name_val →
        assoc_lookup entries ("status") = some (.str status) →
        assoc_lookup HOMEWORK_VERDICTS status = some verdict →
        parse_status (.dict entries) =
          .ok ("Изменился статус проверки работы \"" ++ pyToStr name_val
                ++ "\". " ++ verdict)) ∧
    (parse_status (.dict [("homework_name", .str ("hw1")), ("status", .str ("approved"))]) =
        .ok ("Изменился статус проверки работы \"hw1\". Работа проверена: ревьюеру всё понравилось. Ура!")) ∧
    (∀ entries, (assoc_lookup entries ("homework_name")).isSome →
        verdict_of ((assoc_lookup entries ("status")).getD .pyNone) = .ok none →
        parse_status (.dict entries) =
          .error (.valueError ("Неизвестный статус работы - "
            ++ pyToStr ((assoc_lookup entries ("status")).getD .pyNone) ++ "."))) ∧
    (∀ entries e, (assoc_lookup entries ("homework_name")).isSome →
        verdict_of ((assoc_lookup entries ("status")).getD .pyNone) = .error e →
        parse_status (.dict entries) = .error e) := by
  refine ⟨?_, rfl, ?_, ?_⟩
  · intro entries name_val status verdict hname hstatus hverdict
    simp [parse_status, hname, hstatus, verdict_of, hverdict]
  · intro entries hname hver
    rw [Option.isSome_iff_exists] at hname
    obtain ⟨name_val, hname⟩ := hname
    simp [parse_status, hname, hver]
  · intro entries e hname hver
    rw [Option.isSome_iff_exists] at hname
    obtain ⟨name_val, hname⟩ := hname
    simp [parse_status, hname, hver]

theorem C3_witness :
    parse_status (.dict [("homework_name", .str ("hw2")), ("status", .str ("rejected"))]) =
      .ok ("Изменился статус проверки работы \"hw2\". Работа проверена: у ревьюера есть замечания.") ∧
    parse_status (.dict [("homework_name", .str ("hw2")), ("status", .str ("unknown"))]) =
      .error (.valueError ("Неизвестный статус работы - unknown.")) :=
  ⟨C3_parse_status_verdicts.1 [("homework_name", .str ("hw2")), ("status", .str ("rejected"))]
      (.str ("hw2")) ("rejected") ("Работа проверена: у ревьюера есть замечания.") rfl rfl rfl,
   C3_parse_status_verdicts.2.2.1 [("homework_name", .str ("hw2")), ("status", .str ("unknown"))]
      rfl rfl⟩

/-- C9: `timestamp = current_timestamp or int(time.time())` — a falsy
timestamp argument (in particular `0`) is replaced by the wall clock as the
`from_date` the request is built from, and a truthy one is passed through
unchanged. -/
theorem C9_falsy_timestamp :
    (∀ (now : Int) (http : Py → HttpResult),
        get_api_answer (.int 0) now http = handle_http (.int now) (http (.int now))) ∧
    (∀ (ts : Py) (now : Int) (http : Py → HttpResult), pyTruthy ts = false →
        get_api_answer ts now http = handle_http (.int now) (http (.int now))) ∧
    (∀ (ts : Py) (now : Int) (http : Py → HttpResult), pyTruthy ts = true →
        get_api_answer ts now http = handle_http ts (http ts)) ∧
    (∀ (n : Int), n ≠ 0 → pyTruthy (.int n) = true) ∧
    (pyTruthy (.int 0) = false) := by
  refine ⟨fun now http => rfl, ?_, ?_, ?_, rfl⟩
  · intro ts now http h
    simp [get_api_answer, h]
  · intro ts now http h
    simp [get_api_answer, h]
  · intro n h
    simp [pyTruthy, h]

theorem C9_witness :
    get_api_answer Py.pyNone 7 (fun t => .response 200 (.parsed t)) =
      handle_http (.int 7) (.response 200 (.parsed (.int 7))) ∧
    get_api_answer (.int 5) 7 (fun t => .response 200 (.parsed t)) =
      handle_http (.int 5) (.response 200 (.parsed (.int 5))) :=
  ⟨C9_falsy_timestamp.2.1 Py.pyNone 7 (fun t => .response 200 (.parsed t)) rfl,
   C9_falsy_timestamp.2.2.1 (.int 5) 7 (fun t => .response 200 (.parsed t)) rfl⟩

/-- C4: both fetch failure modes — a non-200 status, and any transport-level
fault (a raised `RequestException` or a malformed 200 body) — surface as
`WrongResponseCode` with a descriptive message; `get_api_answer` can fail no
other way; `WrongResponseCode` is not in the `NotForSend` family, so the
generic handler attempts a user-facing notification for it whenever the
failure text is new. -/
theorem C4_wrong_response_code :
    (∀ (fd : Py) (status : Nat) (body : JsonResult), status ≠ 200 →
        handle_http fd (.response status body) =
          .error (.wrongResponseCode (wrongCodeMessage status fd))) ∧
    (∀ (fd : Py) (e : String),
        handle_http fd (.requestException e) =
          .error (.wrongResponseCode (requestErrorMessage fd))) ∧
    (∀ (fd : Py) (e : String),
        handle_http fd (.response 200 (.malformed e)) =
          .error (.wrongResponseCode (requestErrorMessage fd))) ∧
    (∀ (ts : Py) (now : Int) (http : Py → HttpResult) (e : PyError),
        get_api_answer ts now http = .error e → ∃ m, e = .wrongResponseCode m) ∧
    (∀ m, isNotForSend (.wrongResponseCode m) = false) ∧
    (∀ (env : CycleEnv) (st : BotState) m,
        failureMessage (.wrongResponseCode m) ≠ st.prev_msg →
        (handle_error env st (.wrongResponseCode m) [] []).attempts =
          [failureMessage (.wrongResponseCode m)]) := by
  refine ⟨?_, fun fd e => rfl, fun fd e => rfl, ?_, fun m => rfl, ?_⟩
  · intro fd status body h
    simp [handle_http, h]
  · intro ts now http e h
    rw [show get_api_answer ts now http =
        handle_http (if pyTruthy ts then ts else Py.int now)
          (http (if pyTruthy ts then ts else Py.int now)) from rfl] at h
    cases hh : http (if pyTruthy ts then ts else Py.int now) with
    | requestException s =>
        rw [hh] at h
        simp [handle_http] at h
        exact ⟨_, h.symm⟩
    | response status body =>
        rw [hh] at h
        by_cases hs : status = 200
        · subst hs
          cases body with
          | parsed v => simp [handle_http] at h
          | malformed s =>
              simp [handle_http] at h
              exact ⟨_, h.symm⟩
        · simp [handle_http, hs] at h
          exact ⟨_, h.symm⟩
  · intro env st m h
    cases hs : env.send (failureMessage (.wrongResponseCode m)) with
    | success => simp [handle_error, send_message, isNotForSend, h, hs]
    | telegramFailure err => simp [handle_error, send_message, isNotForSend, h, hs]

theorem C4_witness :
    handle_http (.int 1) (.response 503 (.parsed Py.pyNone)) =
      .error (.wrongResponseCode (wrongCodeMessage 503 (.int 1))) ∧
    (handle_error ⟨fun _ => .response 200 (.parsed Py.pyNone), 0, fun _ => .success⟩
        ⟨.int 0, ""⟩ (.wrongResponseCode ("boom")) [] []).attempts =
      [failureMessage (.wrongResponseCode ("boom"))] :=
  ⟨C4_wrong_response_code.1 (.int 1) 503 (.parsed Py.pyNone) (by decide),
   C4_wrong_response_code.2.2.2.2.2
     ⟨fun _ => .response 200 (.parsed Py.pyNone), 0, fun _ => .success⟩
     ⟨.int 0, ""⟩ ("boom") (by decide)⟩

end HomeworkBot

namespace HomeworkBot

/-- C1, counterexample: one concrete cycle — the API answers 503, Telegram is
down — in which the failure-notification attempt made inside the generic
error handler fails, and the resulting `TelegramError` escapes the loop body
(an exception raised inside an `except` clause is not caught by its own
`try`), crashing the process. -/
theorem C1_counterexample :
    (cycle ⟨fun _ => .response 503 (.malformed ("boom")), 1000,
            fun _ => .telegramFailure ("net down")⟩ ⟨.int 1, ""⟩).escaped =
      some (.telegramError (telegramErrorMessage ("net down"))) := rfl

/-- C1, amended: every error raised in the loop's `try` body is dispatched to
the loop's handlers, a `NotForSend`-family error never escapes, and when
every delivery succeeds nothing escapes; the only exception that can escape
the loop body is the `TelegramError` raised by the failure-notification
delivery inside the generic handler. -/
theorem C1_escape_only_failed_notification :
    (∀ (env : CycleEnv) (st : BotState) (e2 : PyError),
        (cycle env st).escaped = some e2 → ∃ s, e2 = .telegramError s) ∧
    (∀ (env : CycleEnv) (st : BotState),
        (∀ m, env.send m = .success) → (cycle env st).escaped = none) ∧
    (∀ (env : CycleEnv) (st : BotState) (e : PyError) (as ds : List String),
        isNotForSend e = true → (handle_error env st e as ds).escaped = none) := by
  refine ⟨?_, ?_, ?_⟩
  · intro env st e2 h
    rcases cycle_cases env st with ⟨st1, e, as, hcyc, _, _⟩ | ⟨ts, msg, _, hcyc⟩ | ⟨ts, hcyc⟩
    · rw [hcyc] at h
      exact handle_error_escaped env st1 e as [] e2 h
    · rw [hcyc] at h
      exact Option.noConfusion h
    · rw [hcyc] at h
      exact Option.noConfusion h
  · intro env st hsend
    rcases cycle_cases env st with ⟨st1, e, as, hcyc, _, _⟩ | ⟨ts, msg, _, hcyc⟩ | ⟨ts, hcyc⟩
    · rw [hcyc]
      exact handle_error_escaped_success env st1 e as [] hsend
    · rw [hcyc]
    · rw [hcyc]
  · intro env st e as ds h
    rw [handle_error_not_for_send env st e as ds h]

theorem C1_witness :
    (cycle ⟨fun _ => .response 200 (.parsed Py.pyNone), 0, fun _ => .success⟩
        ⟨.int 1, ""⟩).escaped = none ∧
    (handle_error ⟨fun _ => .response 200 (.parsed Py.pyNone), 0, fun _ => .success⟩
        ⟨.int 1, ""⟩ (.emptyResponseFromAPI ("x")) [] []).escaped = none :=
  ⟨C1_escape_only_failed_notification.2.1
      ⟨fun _ => .response 200 (.parsed Py.pyNone), 0, fun _ => .success⟩
      ⟨.int 1, ""⟩ (fun _ => rfl),
   C1_escape_only_failed_notification.2.2
      ⟨fun _ => .response 200 (.parsed Py.pyNone), 0, fun _ => .success⟩
      ⟨.int 1, ""⟩ (.emptyResponseFromAPI ("x")) [] [] rfl⟩

/-- C2: a delivery attempt is only ever made for a message that differs from
the cycle's starting `prev_message`, and feeding the loop the same successful
response in two consecutive cycles (deliveries succeeding) produces exactly
one delivery attempt: the second cycle only logs. -/
theorem C2_single_delivery :
    (∀ (env : CycleEnv) (st : BotState) (m : String),
        m ∈ (cycle env st).attempts → m ≠ st.prev_msg) ∧
    (∀ (resp : Py) (now1 now2 : Int) (st : BotState) (hws : List Py) (m : String),
        check_response resp = .ok hws →
        compute_message hws = .ok m →
        m ≠ st.prev_msg →
        (runCycles
          [⟨fun _ => .response 200 (.parsed resp), now1, fun _ => .success⟩,
           ⟨fun _ => .response 200 (.parsed resp), now2, fun _ => .success⟩]
          st).attempts = [m]) := by
  constructor
  · intro env st m hm
    rcases cycle_cases env st with ⟨st1, e, as, hcyc, hprev, has⟩ | ⟨ts, msg, hne, hcyc⟩ |
      ⟨ts, hcyc⟩
    · rw [hcyc] at hm
      rcases mem_handle_error_attempts env st1 e as [] m hm with hin | hne
      · rcases has with rfl | ⟨msg, rfl, hmsg⟩
        · exact absurd hin (List.not_mem_nil m)
        · rw [List.mem_singleton] at hin
          exact hin ▸ hmsg
      · exact hprev ▸ hne
    · rw [hcyc] at hm
      rw [List.mem_singleton] at hm
      exact hm ▸ hne
    · rw [hcyc] at hm
      exact absurd hm (List.not_mem_nil m)
  · intro resp now1 now2 st hws m hcheck hmsg hne
    cases resp with
    | dict entries =>
        have hga : ∀ (ts : Py) (now : Int),
            get_api_answer ts now (fun _ => .response 200 (.parsed (.dict entries))) =
              .ok (.dict entries) := by
          intro ts now
          simp [get_api_answer, handle_http]
        simp [runCycles, cycle, hga, dict_get, hcheck, hmsg, send_message, hne]
    | pyNone => simp [check_response] at hcheck
    | int n => simp [check_response] at hcheck
    | str s => simp [check_response] at hcheck
    | list xs => simp [check_response] at hcheck

theorem C2_witness :
    (runCycles
      [⟨fun _ => .response 200
          (.parsed (.dict [("homeworks", .list []), ("current_date", .int 1)])), 1,
        fun _ => .success⟩,
       ⟨fun _ => .response 200
          (.parsed (.dict [("homeworks", .list []), ("current_date", .int 1)])), 2,
        fun _ => .success⟩]
      ⟨.int 0, ""⟩).attempts = ["Нет новых статусов"] :=
  C2_single_delivery.2 (.dict [("homeworks", .list []), ("current_date", .int 1)])
    1 2 ⟨.int 0, ""⟩ [] ("Нет новых статусов") rfl rfl (by decide)

/-- C7: `prev_message` survives a failed delivery — it changes only to a
message that was actually delivered; in a cycle whose fresh message fails to
send, the `TelegramError` goes to the loop's outer handler (the `except
NotForSend` clause: caught, logged, no escape) and `prev_message` is
unchanged, while a successful delivery updates it. -/
theorem C7_prev_message_on_failure :
    (∀ (env : CycleEnv) (st : BotState),
        (cycle env st).state.prev_msg = st.prev_msg ∨
        (cycle env st).state.prev_msg ∈ (cycle env st).delivered) ∧
    (∀ (resp : Py) (now : Int) (send : String → SendOutcome) (st : BotState)
        (hws : List Py) (m err : String),
        check_response resp = .ok hws →
        compute_message hws = .ok m →
        m ≠ st.prev_msg →
        send m = .telegramFailure err →
        (cycle ⟨fun _ => .response 200 (.parsed resp), now, send⟩ st).state.prev_msg
            = st.prev_msg ∧
        (cycle ⟨fun _ => .response 200 (.parsed resp), now, send⟩ st).attempts = [m] ∧
        (cycle ⟨fun _ => .response 200 (.parsed resp), now, send⟩ st).escaped = none) ∧
    (∀ (resp : Py) (now : Int) (send : String → SendOutcome) (st : BotState)
        (hws : List Py) (m : String),
        check_response resp = .ok hws →
        compute_message hws = .ok m →
        m ≠ st.prev_msg →
        send m = .success →
        (cycle ⟨fun _ => .response 200 (.parsed resp), now, send⟩ st).state.prev_msg = m ∧
        (cycle ⟨fun _ => .response 200 (.parsed resp), now, send⟩ st).delivered = [m]) := by
  refine ⟨?_, ?_, ?_⟩
  · intro env st
    rcases cycle_cases env st with ⟨st1, e, as, hcyc, hprev, _⟩ | ⟨ts, msg, hne, hcyc⟩ |
      ⟨ts, hcyc⟩
    · rw [hcyc]
      rcases handle_error_prev env st1 e as [] with h | h
      · exact .inl (h.trans hprev)
      · exact .inr h
    · rw [hcyc]
      exact .inr (List.mem_singleton.mpr rfl)
    · rw [hcyc]
      exact .inl rfl
  · intro resp now send st hws m err hcheck hmsg hne hsend
    cases resp with
    | dict entries =>
        have hga : ∀ (ts : Py) (now : Int),
            get_api_answer ts now (fun _ => .response 200 (.parsed (.dict entries))) =
              .ok (.dict entries) := by
          intro ts now
          simp [get_api_answer, handle_http]
        refine ⟨?_, ?_, ?_⟩ <;>
          simp [cycle, hga, dict_get, hcheck, hmsg, send_message, hne, hsend,
            handle_error, isNotForSend]
    | pyNone => simp [check_response] at hcheck
    | int n => simp [check_response] at hcheck
    | str s => simp [check_response] at hcheck
    | list xs => simp [check_response] at hcheck
  · intro resp now send st hws m hcheck hmsg hne hsend
    cases resp with
    | dict entries =>
        have hga : ∀ (ts : Py) (now : Int),
            get_api_answer ts now (fun _ => .response 200 (.parsed (.dict entries))) =
              .ok (.dict entries) := by
          intro ts now
          simp [get_api_answer, handle_http]
        constructor <;>
          simp [cycle, hga, dict_get, hcheck, hmsg, send_message, hne, hsend]
    | pyNone => simp [check_response] at hcheck
    | int n => simp [check_response] at hcheck
    | str s => simp [check_response] at hcheck
    | list xs => simp [check_response] at hcheck

theorem C7_witness :
    (cycle ⟨fun _ => .response 200
        (.parsed (.dict [("homeworks", .list []), ("current_date", .int 1)])), 1,
        fun _ => .telegramFailure ("down")⟩ ⟨.int 0, ""⟩).state.prev_msg = "" ∧
    (cycle ⟨fun _ => .response 200
        (.parsed (.dict [("homeworks", .list []), ("current_date", .int 1)])), 1,
        fun _ => .telegramFailure ("down")⟩ ⟨.int 0, ""⟩).attempts = ["Нет новых статусов"] ∧
    (cycle ⟨fun _ => .response 200
        (.parsed (.dict [("homeworks", .list []), ("current_date", .int 1)])), 1,
        fun _ => .telegramFailure ("down")⟩ ⟨.int 0, ""⟩).escaped = none :=
  C7_prev_message_on_failure.2.1
    (.dict [("homeworks", .list []), ("current_date", .int 1)]) 1
    (fun _ => .telegramFailure ("down")) ⟨.int 0, ""⟩ [] ("Нет новых статусов") ("down")
    rfl rfl (by decide) rfl

/-- Helper for C8: when the fetch succeeds and the `current_date` read
succeeds, the cycle's final `current_timestamp` is exactly the value read
(every later branch of the cycle body, handlers included, preserves it). -/
theorem cycle_timestamp_of_ok (env : CycleEnv) (st : BotState) (resp v : Py)
    (hga : get_api_answer st.current_timestamp env.now env.http = .ok resp)
    (hd : dict_get resp ("current_date") (.int env.now) = .ok v) :
    (cycle env st).state.current_timestamp = v := by
  cases hc : check_response resp with
  | error e =>
      rw [show cycle env st = handle_error env ⟨v, st.prev_msg⟩ e [] [] from by
        simp [cycle, hga, hd, hc]]
      exact handle_error_ts env ⟨v, st.prev_msg⟩ e [] []
  | ok hws =>
    cases hp : compute_message hws with
    | error e =>
        rw [show cycle env st = handle_error env ⟨v, st.prev_msg⟩ e [] [] from by
          simp [cycle, hga, hd, hc, hp]]
        exact handle_error_ts env ⟨v, st.prev_msg⟩ e [] []
    | ok m =>
      by_cases hm : m = st.prev_msg
      · rw [show cycle env st = ⟨⟨v, st.prev_msg⟩, [], [], none⟩ from by
          simp [cycle, hga, hd, hc, hp, hm]]
      · cases hs : env.send m with
        | success =>
            rw [show cycle env st = ⟨⟨v, m⟩, [m], [m], none⟩ from by
              simp [cycle, hga, hd, hc, hp, hm, send_message, hs]]
        | telegramFailure err =>
            rw [show cycle env st =
                handle_error env ⟨v, st.prev_msg⟩
                  (.telegramError (telegramErrorMessage err)) [m] [] from by
              simp [cycle, hga, hd, hc, hp, hm, send_message, hs]]
            exact handle_error_ts env ⟨v, st.prev_msg⟩ _ [m] []

/-- C8, counterexample: a cycle that starts with `current_timestamp = 100`
and receives a response whose `current_date` is `50` ends with
`current_timestamp = 50 < 100`: the timestamp is not monotone. -/
theorem C8_counterexample :
    (cycle ⟨fun _ => .response 200
        (.parsed (.dict [("homeworks", .list []), ("current_date", .int 50)])),
        1000, fun _ => .success⟩
      ⟨.int 100, ""⟩).state.current_timestamp = .int 50 ∧ (50 : Int) < 100 :=
  ⟨rfl, by decide⟩

/-- C8, amended: `current_timestamp` takes its value from the response's
`current_date` when the fetch succeeds and yields a mapping (wall-clock
fallback when the key is absent), and keeps its old value when the fetch
fails; no monotonicity is enforced — the assignment also moves it backward. -/
theorem C8_timestamp_source :
    (∀ (env : CycleEnv) (st : BotState) (entries : List (String × Py)),
        env.http (if pyTruthy st.current_timestamp then st.current_timestamp
                  else .int env.now) = .response 200 (.parsed (.dict entries)) →
        (cycle env st).state.current_timestamp =
          (assoc_lookup entries ("current_date")).getD (.int env.now)) ∧
    (∀ (env : CycleEnv) (st : BotState) (e : PyError),
        get_api_answer st.current_timestamp env.now env.http = .error e →
        (cycle env st).state.current_timestamp = st.current_timestamp) := by
  constructor
  · intro env st entries h
    have hga : get_api_answer st.current_timestamp env.now env.http =
        .ok (.dict entries) := by
      rw [show get_api_answer st.current_timestamp env.now env.http =
          handle_http (if pyTruthy st.current_timestamp then st.current_timestamp
                       else .int env.now)
            (env.http (if pyTruthy st.current_timestamp then st.current_timestamp
                       else .int env.now)) from rfl]
      rw [h]
      simp [handle_http]
    exact cycle_timestamp_of_ok env st (.dict entries)
      ((assoc_lookup entries ("current_date")).getD (.int env.now)) hga rfl
  · intro env st e h
    rw [show cycle env st = handle_error env st e [] [] from by simp [cycle, h]]
    exact handle_error_ts env st e [] []

theorem C8_witness :
    (cycle ⟨fun _ => .response 200
        (.parsed (.dict [("homeworks", .list []), ("current_date", .int 50)])),
        1000, fun _ => .success⟩
      ⟨.int 100, ""⟩).state.current_timestamp =
      (assoc_lookup [("homeworks", Py.list []), ("current_date", Py.int 50)]
        ("current_date")).getD (.int 1000) :=
  C8_timestamp_source.1
    ⟨fun _ => .response 200
        (.parsed (.dict [("homeworks", .list []), ("current_date", .int 50)])),
      1000, fun _ => .success⟩
    ⟨.int 100, ""⟩ [("homeworks", Py.list []), ("current_date", Py.int 50)] rfl

end HomeworkBot
